import Mathlib

/-!
Shallow embedding of the core of `rbx-reclaimer` (src/main.rs): an unclaimed
Roblox group finder.  The embedding models

* the data records deserialized from the group API (`Group`, `Relationships`,
  `GroupSearchResponse`, ...);
* the persistent exclusion store (`groups.json`, a JSON array of group ids)
  as a `List Nat`, with `exclude_group` / `is_group_excluded` translated from
  the source (file creation and I/O errors are transport-level concerns that
  cannot fail in the pure model);
* the group API client as an abstract `Provider`.  Each reqwest call in the
  source is a two-stage fallible operation: `send()` can fail at the transport
  level (propagated with `?` in the source) and `.json()` can fail to decode
  (a `Result` the source inspects with `if let Ok`).  `FetchResult` has one
  constructor for each failure stage;
* randomness (`rand::thread_rng().gen_range`, `SliceRandom::choose`) as an
  explicit `Nat` draw threaded through the functions, with the library
  contract of `gen_range(lo..=hi)` (a value in `[lo, hi]`, panic on an empty
  range) and of `choose` (some element of a non-empty slice);
* Rust panics (`panic!`, `.unwrap()`, `.expect(...)`) as explicit result
  constructors carrying the message and, for the walker, the state reached
  when the process aborted;
* the recursive walker `process_group` / `process_relationships` and the
  recursive paginated selector `get_random_group_id` as fuel-indexed
  functions (`none` = fuel exhausted), since the source recursion is a priori
  unbounded.

`WalkState` additionally records a `visit_log` (the ids whose relationship
pages were requested, appended on entry to `process_relationships`) and
`reported` (the ids printed by the report block of `process_group`); these
are observation logs of the side effects the specification talks about.
-/

namespace Reclaimer

/-- `User` record from src/main.rs. -/
structure User where
  has_verified_badge : Bool
  user_id : Nat
  username : String
  display_name : String
deriving DecidableEq, Repr

/-- `Shout` record from src/main.rs. -/
structure Shout where
  body : String
  poster : User
  created : String
  updated : String
deriving DecidableEq, Repr

/-- `Group` record from src/main.rs. -/
structure Group where
  id : Nat
  name : String
  description : String
  owner : Option User
  shout : Option Shout
  member_count : Nat
  is_builders_club_only : Bool
  public_entry_allowed : Bool
  is_locked : Option Bool
  has_verified_badge : Bool
deriving DecidableEq, Repr

/-- `Relationships` record from src/main.rs. -/
structure Relationships where
  group_id : Nat
  relationship_type : String
  total_group_count : Nat
  related_groups : List Group
  next_row_index : Nat
deriving DecidableEq, Repr

/-- `RobloxError` record from src/main.rs. -/
structure RobloxError where
  code : Nat
  message : String
  user_facing_message : Option String
deriving DecidableEq, Repr

/-- `GroupSearchResponseItem` record from src/main.rs. -/
structure GroupSearchResponseItem where
  id : Nat
  name : String
  description : String
  member_count : Nat
  previous_name : Option String
  public_entry_allowed : Bool
  created : String
  updated : String
  has_verified_badge : Bool
deriving DecidableEq, Repr

/-- `GroupSearchResponse` record from src/main.rs. -/
structure GroupSearchResponse where
  keyword : Option String
  previous_page_cursor : Option String
  next_page_cursor : Option String
  data : Option (List GroupSearchResponseItem)
  errors : Option (List RobloxError)
deriving DecidableEq, Repr

/-- The CLI arguments consumed by the core (`Args` in src/main.rs).  The
source field `repeat` (a Lean keyword) is rendered `repeat_run`; it is only
read by `main`'s loop. -/
structure Args where
  query : Option String
  min : Nat
  max : Nat
  ignore_closed_groups : Bool
  group_api_domain : String
  repeat_run : Bool
deriving DecidableEq, Repr

/-- Outcome of one reqwest call as used in src/main.rs:
`send().await` can fail at the transport level (`transportError`, always
propagated with `?` in the source), and `.json::<T>().await` can fail to
decode (`decodeError`, inspected with `if let Ok` in the source). -/
inductive FetchResult (α : Type) where
  | transportError : FetchResult α
  | decodeError : FetchResult α
  | ok : α → FetchResult α
deriving DecidableEq, Repr

/-- The abstract group API, one field per endpoint the source hits:
`GET /v1/groups/id`, `GET /v1/groups/search?...&cursor=...` (keyed by the
cursor that varies between calls), and the allies / enemies relationship
pages of a group. -/
structure Provider where
  fetch_group : Nat → FetchResult Group
  search : Option String → FetchResult GroupSearchResponse
  allies : Nat → FetchResult Relationships
  enemies : Nat → FetchResult Relationships

/-- `is_group_available` from src/main.rs, verbatim. -/
def is_group_available (group : Group) (args : Args) : Bool :=
  if group.owner.isSome || group.is_locked.isSome then false
  else if args.ignore_closed_groups && (!group.public_entry_allowed || group.member_count == 0) then
    false
  else true

/-- `exclude_group` from src/main.rs: read `groups.json`, `Vec::push` the id,
write the array back.  The store is the parsed array; `push` appends at the
end unconditionally. -/
def exclude_group (store : List Nat) (group_id : Nat) : List Nat :=
  store ++ [group_id]

/-- `is_group_excluded` from src/main.rs: membership in the parsed
`groups.json` array. -/
def is_group_excluded (store : List Nat) (group_id : Nat) : Bool :=
  store.contains group_id

/-- `fetch_groups` from src/main.rs.  For each id in order the source does
`client.get(...).send().await?` — so a transport failure aborts the whole
function with `Err` (`Except.error ()`) — and then `.json::<Group>().await`,
whose failure just skips the id (`if let Ok(group) = group`). -/
def fetch_groups (p : Provider) (group_ids : List Nat) : Except Unit (List Group) :=
  match group_ids with
  | [] => .ok []
  | id :: rest =>
    match p.fetch_group id with
    | .transportError => .error ()
    | .decodeError => fetch_groups p rest
    | .ok group =>
      match fetch_groups p rest with
      | .error e => .error e
      | .ok groups => .ok (group :: groups)

/-- Contract of `rand::Rng::gen_range(lo..=hi)` (external library):
a value in `[lo, hi]` determined here by the draw `r`; `none` models the
panic on an empty range `lo > hi`. -/
def gen_range (lo hi r : Nat) : Option Nat :=
  if lo ≤ hi then some (lo + r % (hi + 1 - lo)) else none

/-- Contract of `SliceRandom::choose` (external library): some element of a
non-empty slice, selected here by the draw `r`; `none` on an empty slice. -/
def choose {α : Type} (l : List α) (r : Nat) : Option α :=
  l[r % l.length]?

/-- Result of `get_random_group_id`: `panic` models the source `panic!` on a
search-error payload, the `.unwrap()` of the `data` field and the `gen_range`
panic on an empty range; `transportErr` is the `Err` propagated by `?` from
the search `send()`; `ok` is the `Ok(u32)` return. -/
inductive SelectorResult where
  | panic (msg : String) : SelectorResult
  | transportErr : SelectorResult
  | ok (id : Nat) : SelectorResult
deriving DecidableEq, Repr

/-- Message of the `panic!` on a search response carrying an `errors`
payload (the source formats the payload itself). -/
def search_errors_msg : String := "search response carried an errors payload"

/-- Message of the panic produced by `group_results.data.unwrap()`. -/
def unwrap_none_msg : String := "called Option unwrap on a None value"

/-- Message of the `gen_range` panic on an empty range. -/
def empty_range_msg : String := "cannot sample empty range"

/-- The red notice printed when search pagination is exhausted. -/
def no_groups_msg : String := "No groups to look through"

/-- `get_random_group_id` from src/main.rs, fuel-indexed because the source
recurses on `next_page_cursor` without bound.  `log` collects the strings
printed with `println!`; `r` is the random draw used by whichever of
`gen_range` / `choose` the call reaches. -/
def get_random_group_id (fuel : Nat) (p : Provider) (args : Args)
    (next_page_cursor : Option String) (r : Nat) (log : List String) :
    Option (SelectorResult × List String) :=
  match fuel with
  | 0 => none
  | fuel + 1 =>
    match args.query with
    | some _ =>
      match p.search next_page_cursor with
      | .transportError => some (.transportErr, log)
      | .decodeError => some (.ok 0, log)
      | .ok group_results =>
        if group_results.errors.isSome then
          some (.panic search_errors_msg, log)
        else
          match group_results.data with
          | none => some (.panic unwrap_none_msg, log)
          | some items =>
            let group_ids : List Nat := items.map (fun group => group.id)
            match fetch_groups p group_ids with
            | .error _ => some (.ok 0, log)
            | .ok groups =>
              let data : List Group := groups.filter (fun group => is_group_available group args)
              if !data.isEmpty then
                match choose data r with
                | some g => some (.ok g.id, log)
                | none => some (.panic unwrap_none_msg, log)
              else if group_results.next_page_cursor.isSome then
                get_random_group_id fuel p args group_results.next_page_cursor r log
              else
                some (.ok 0, log ++ [no_groups_msg])
    | none =>
      match gen_range args.min args.max r with
      | some id => some (.ok id, log)
      | none => some (.panic empty_range_msg, log)

/-- State threaded through the relationship walk: `store` is the parsed
content of `groups.json`; `visit_log` records, in order, each id whose
relationship pages `process_relationships` requested (appended on entry);
`reported` records the ids printed by the report `println!` of
`process_group`. -/
structure WalkState where
  store : List Nat
  visit_log : List Nat
  reported : List Nat
deriving DecidableEq, Repr

/-- Outcome of a walker function: `panic` (carrying the message and the state
reached when the process aborted) models a Rust panic unwinding out of the
walk; `ok` is a normal return. -/
inductive WalkRes (α : Type) where
  | panic (msg : String) (st : WalkState) : WalkRes α
  | ok (val : α) : WalkRes α
deriving DecidableEq, Repr

/-- Message of the `.expect(...)` applied to `process_relationships`'s
result in `process_group`. -/
def rel_expect_msg : String := "Failed to process relationships."

/-- Append `group_id` to the visit log: `process_relationships` has issued
the relationship requests for this id. -/
def log_visit (st : WalkState) (group_id : Nat) : WalkState :=
  { st with visit_log := st.visit_log ++ [group_id] }

mutual

/-- `process_group` from src/main.rs, fuel-indexed (`none` = fuel ran out).
The source returns `Result<bool>` but never `Err`: its failure paths are
panics (`unwrap_or_else(panic!)` around the store operations — infallible in
the pure model — and `.expect(...)` around `process_relationships`, which
turns the transport `Err` of a relationship `send()` into a panic). -/
def process_group (fuel : Nat) (p : Provider) (args : Args) (group : Group)
    (st : WalkState) : Option (WalkRes (WalkState × Bool)) :=
  match fuel with
  | 0 => none
  | fuel + 1 =>
    if is_group_excluded st.store group.id then
      some (.ok (st, false))
    else
      let st1 : WalkState := { st with store := exclude_group st.store group.id }
      match process_relationships fuel p args group st1 with
      | none => none
      | some (.panic m s) => some (.panic m s)
      | some (.ok (.error s)) => some (.panic rel_expect_msg s)
      | some (.ok (.ok st2)) =>
        if !is_group_available group args then
          some (.ok (st2, false))
        else
          some (.ok ({ st2 with reported := st2.reported ++ [group.id] }, true))

/-- `process_relationships` from src/main.rs.  The allies request is issued
first; a transport failure there is propagated by `?` (`Except.error`,
carrying the state for observation) *before* the enemies request is issued.
Decode failures of either page are only inspected later with `if let Ok`,
so a page that fails to decode is skipped while the other is still
processed. -/
def process_relationships (fuel : Nat) (p : Provider) (args : Args)
    (group : Group) (st : WalkState) :
    Option (WalkRes (Except WalkState WalkState)) :=
  match fuel with
  | 0 => none
  | fuel + 1 =>
    match p.allies group.id with
    | .transportError => some (.ok (.error (log_visit st group.id)))
    | allies =>
      match p.enemies group.id with
      | .transportError => some (.ok (.error (log_visit st group.id)))
      | enemies =>
        let st1 : WalkState := log_visit st group.id
        match (match allies with
               | .ok rel => process_list fuel p args rel.related_groups st1
               | _ => some (.ok st1)) with
        | none => none
        | some (.panic m s) => some (.panic m s)
        | some (.ok st2) =>
          match (match enemies with
                 | .ok rel => process_list fuel p args rel.related_groups st2
                 | _ => some (.ok st2)) with
          | none => none
          | some (.panic m s) => some (.panic m s)
          | some (.ok st3) => some (.ok (.ok st3))

/-- The `for ally in allies.related_groups.iter()` / `for enemy in ...` loops
of `process_relationships`: fold `process_group` over the page, threading the
state.  The `?` on `process_group(...)` never fires in the source (that
function never returns `Err`), so only panics propagate. -/
def process_list (fuel : Nat) (p : Provider) (args : Args)
    (groups : List Group) (st : WalkState) : Option (WalkRes WalkState) :=
  match fuel with
  | 0 => none
  | fuel + 1 =>
    match groups with
    | [] => some (.ok st)
    | g :: rest =>
      match process_group fuel p args g st with
      | none => none
      | some (.panic m s) => some (.panic m s)
      | some (.ok (st1, _)) => process_list fuel p args rest st1

end

/-- State carried by a walker outcome. -/
def out_state {α : Type} (extract : α → WalkState) : WalkRes α → WalkState
  | .panic _ s => s
  | .ok v => extract v

/-- State carried by a `process_group` outcome. -/
def out_state_group (out : WalkRes (WalkState × Bool)) : WalkState :=
  out_state (fun v => v.1) out

/-- State carried by a `process_relationships` outcome (the `Except.error`
side is the transport `Err` propagated by `?`). -/
def out_state_rel (out : WalkRes (Except WalkState WalkState)) : WalkState :=
  out_state (fun v => match v with | .error s => s | .ok s => s) out

/-- State carried by a `process_list` outcome. -/
def out_state_list (out : WalkRes WalkState) : WalkState :=
  out_state (fun v => v) out

/-- A relationship-page fetch outcome is confined to the id universe `univ`
with at most `L` related groups: the finiteness hypothesis on the
relationship graph.  Failed fetches are vacuously confined. -/
def page_ok (univ : List Nat) (L : Nat) : FetchResult Relationships → Bool
  | .ok rel =>
      rel.related_groups.all (fun g => univ.contains g.id) &&
        Nat.ble rel.related_groups.length L
  | _ => true

/-- Number of ids of `univ` not yet in the store: the termination measure of
the relationship walk. -/
def fresh_count (univ store : List Nat) : Nat :=
  (univ.toFinset \ store.toFinset).card

/-- Fuel sufficient for `process_group` on a graph with pages of length at
most `L` when at most `n` ids of the universe are missing from the store. -/
def pg_fuel (L n : Nat) : Nat :=
  (3 + L) * n + 1

/-- Walk-state invariant: the visit log has no duplicates and only contains
stored ids (an id is inserted into the store before its relationship pages
are requested). -/
def WalkInv (st : WalkState) : Prop :=
  st.visit_log.Nodup ∧ ∀ v ∈ st.visit_log, v ∈ st.store

/-- Behaviour of `process_group` under the finiteness hypotheses, at measure
`n`: it returns (no fuel exhaustion) whenever the fuel is at least
`pg_fuel L n`, preserves the walk invariant, only grows the store, and ends
with the argument's id stored. -/
def pg_spec (p : Provider) (args : Args) (univ : List Nat) (L n : Nat) : Prop :=
  ∀ group st fuel, WalkInv st → group.id ∈ univ →
    fresh_count univ st.store ≤ n → pg_fuel L n ≤ fuel →
    ∃ out, process_group fuel p args group st = some out ∧
      WalkInv (out_state_group out) ∧
      (∀ x, x ∈ st.store → x ∈ (out_state_group out).store) ∧
      group.id ∈ (out_state_group out).store

/-- Embed a `process_list` outcome into a `process_relationships` outcome
(no transport error raised at this level). -/
def lift_list_res :
    Option (WalkRes WalkState) → Option (WalkRes (Except WalkState WalkState))
  | none => none
  | some (.panic m s) => some (.panic m s)
  | some (.ok st) => some (.ok (.ok st))

/-! Concrete fixtures used by witnesses and counterexamples. -/

/-- Fixture: an owner. -/
def user_fix : User :=
  { has_verified_badge := false, user_id := 9, username := "u", display_name := "U" }

/-- Fixture: an available group with id 1 (no owner, no lock field, open,
with members). -/
def g1 : Group :=
  { id := 1, name := "A", description := "", owner := none, shout := none,
    member_count := 3, is_builders_club_only := false, public_entry_allowed := true,
    is_locked := none, has_verified_badge := false }

/-- Fixture: an available group with id 2. -/
def g2 : Group :=
  { id := 2, name := "B", description := "", owner := none, shout := none,
    member_count := 5, is_builders_club_only := false, public_entry_allowed := true,
    is_locked := none, has_verified_badge := false }

/-- Fixture: an owned (hence unavailable) group with id 1. -/
def g1_owned : Group :=
  { g1 with owner := some user_fix }

/-- Fixture: a relationship page. -/
def rel_page (src : Nat) (gs : List Group) : Relationships :=
  { group_id := src, relationship_type := "Allies", total_group_count := gs.length,
    related_groups := gs, next_row_index := 0 }

/-- Fixture: the cyclic relationship graph 1 → 2 → 1 (mutual allies, no
enemies); every other request fails to decode. -/
def p_cycle : Provider where
  fetch_group := fun _ => .decodeError
  search := fun _ => .decodeError
  allies := fun id =>
    match id with
    | 1 => .ok (rel_page 1 [g2])
    | 2 => .ok (rel_page 2 [g1])
    | _ => .decodeError
  enemies := fun id =>
    match id with
    | 1 => .ok (rel_page 1 [])
    | 2 => .ok (rel_page 2 [])
    | _ => .decodeError

/-- Fixture: the allies request of group 1 fails at the transport level while
its enemies page decodes fine and names the available group 2. -/
def p_allies_transport : Provider where
  fetch_group := fun _ => .decodeError
  search := fun _ => .decodeError
  allies := fun _ => .transportError
  enemies := fun id =>
    match id with
    | 1 => .ok (rel_page 1 [g2])
    | _ => .decodeError

/-- Fixture: the enemies request of every group fails at the transport
level while the allies page of group 1 decodes fine and names the available
group 2. -/
def p_enemies_transport : Provider where
  fetch_group := fun _ => .decodeError
  search := fun _ => .decodeError
  allies := fun id =>
    match id with
    | 1 => .ok (rel_page 1 [g2])
    | _ => .decodeError
  enemies := fun _ => .transportError

/-- Fixture: the allies page of group 1 fails to decode while its enemies
page decodes fine and names the available group 2. -/
def p_allies_decode : Provider where
  fetch_group := fun _ => .decodeError
  search := fun _ => .decodeError
  allies := fun _ => .decodeError
  enemies := fun id =>
    match id with
    | 1 => .ok (rel_page 1 [g2])
    | _ => .decodeError

/-- Fixture: the enemies page of group 1 fails to decode while its allies
page decodes fine and names the available group 2. -/
def p_enemies_decode : Provider where
  fetch_group := fun _ => .decodeError
  search := fun _ => .decodeError
  allies := fun id =>
    match id with
    | 1 => .ok (rel_page 1 [g2])
    | _ => .decodeError
  enemies := fun _ => .decodeError

/-- Fixture: a search item with the given id. -/
def item_fix (id : Nat) : GroupSearchResponseItem :=
  { id := id, name := "g", description := "", member_count := 1,
    previous_name := none, public_entry_allowed := true, created := "",
    updated := "", has_verified_badge := false }

/-- Fixture: a one-page search response listing the given items. -/
def page_fix (items : List GroupSearchResponseItem) : GroupSearchResponse :=
  { keyword := some "Test", previous_page_cursor := none, next_page_cursor := none,
    data := some items, errors := none }

/-- Fixture: searching finds groups 1 and 2, but fetching group 1 fails at
the transport level; fetching group 2 succeeds with an available record. -/
def p_fetch_transport : Provider where
  fetch_group := fun id =>
    match id with
    | 1 => .transportError
    | 2 => .ok g2
    | _ => .decodeError
  search := fun _ => .ok (page_fix [item_fix 1, item_fix 2])
  allies := fun _ => .decodeError
  enemies := fun _ => .decodeError

/-- Fixture: searching finds only group 1, whose record is owned, and the
page has no next cursor. -/
def p_search_exhausted : Provider where
  fetch_group := fun id =>
    match id with
    | 1 => .ok g1_owned
    | _ => .decodeError
  search := fun _ => .ok (page_fix [item_fix 1])
  allies := fun _ => .decodeError
  enemies := fun _ => .decodeError

/-- Fixture: searching finds group 2, whose record is available. -/
def p_search_found : Provider where
  fetch_group := fun id =>
    match id with
    | 2 => .ok g2
    | _ => .decodeError
  search := fun _ => .ok (page_fix [item_fix 2])
  allies := fun _ => .decodeError
  enemies := fun _ => .decodeError

/-- Fixture: a decoded error payload. -/
def err_fix : RobloxError :=
  { code := 2, message := "bad request", user_facing_message := none }

/-- Fixture: the search response decodes with a nonzero errors array. -/
def p_search_errors : Provider where
  fetch_group := fun _ => .decodeError
  search := fun _ => .ok { page_fix [] with errors := some [err_fix] }
  allies := fun _ => .decodeError
  enemies := fun _ => .decodeError

/-- Fixture: the search response decodes with no errors and no data array. -/
def p_search_no_data : Provider where
  fetch_group := fun _ => .decodeError
  search := fun _ => .ok { page_fix [] with data := none }
  allies := fun _ => .decodeError
  enemies := fun _ => .decodeError

/-- Fixture: search-strategy arguments. -/
def args_search : Args :=
  { query := some "Test", min := 1, max := 10, ignore_closed_groups := false,
    group_api_domain := "", repeat_run := false }

/-- Fixture: random-strategy arguments with the degenerate range 5..=5. -/
def args_five : Args :=
  { query := none, min := 5, max := 5, ignore_closed_groups := false,
    group_api_domain := "", repeat_run := false }

/-! ## Theorems -/

/-- C1: `isAvailable(g, cfg)` holds iff `g.owner` is absent, `g.isLocked` is
absent (any present value, including explicit `false`, makes the group
unavailable), and, when `cfg.ignoreClosedGroups` is set,
`g.publicEntryAllowed` holds and `g.memberCount` is nonzero; in particular
it is false whenever `g.owner` is present, and true whenever both optional
fields are absent and `ignoreClosedGroups` is off. -/
theorem is_group_available_spec (g : Group) (args : Args) :
    (is_group_available g args = true ↔
      (g.owner = none ∧ g.is_locked = none ∧
        (args.ignore_closed_groups = true →
          g.public_entry_allowed = true ∧ g.member_count ≠ 0)))
    ∧ (g.owner.isSome = true → is_group_available g args = false)
    ∧ (g.owner = none → g.is_locked = none → args.ignore_closed_groups = false →
        is_group_available g args = true) := by
  obtain ⟨id, name, dsc, owner, shout, mc, bc, pea, locked, vb⟩ := g
  simp only [is_group_available]
  cases owner <;> cases locked <;> cases args.ignore_closed_groups <;> cases pea <;>
    simp_all

/-- C1 witness: on the concrete owned group the second conjunct applies, and
on the concrete available fixtures the classifier returns true. -/
theorem is_group_available_spec_witness :
    is_group_available g1_owned args_search = false ∧ is_group_available g1 args_search = true :=
  ⟨(is_group_available_spec g1_owned args_search).2.1 (by decide),
   (is_group_available_spec g1 args_search).1.mpr (by decide)⟩

/-- C3 counterexample: insertion is not a no-op on an already-present id —
inserting 5 into the store `[5]` yields `[5, 5]`, so inserting the same id
twice grows the stored sequence to two entries. -/
theorem exclude_group_not_idempotent :
    exclude_group [5] 5 ≠ [5] ∧
    (exclude_group (exclude_group [] 5) 5).length = 2 := by decide

/-- C3 amended: `exclude_group` appends the id unconditionally; after
inserting the same id twice `is_group_excluded` still returns true, but the
stored sequence has gained one entry per call (two entries for that id), not
one logical entry. -/
theorem exclude_group_append_spec (store : List Nat) (id : Nat) :
    is_group_excluded (exclude_group store id) id = true ∧
    is_group_excluded (exclude_group (exclude_group store id) id) id = true ∧
    (exclude_group (exclude_group store id) id).count id = store.count id + 2 := by
  refine ⟨?_, ?_, ?_⟩ <;>
    simp [is_group_excluded, exclude_group, List.elem_iff, List.count_append]

/-- C4: a group whose id is already in the exclusion store makes
`process_group` return false immediately, with the walk state unchanged —
no relationship page is requested (`visit_log` untouched), nothing is
reported, and the store is not modified. -/
theorem process_group_skips_excluded (fuel : Nat) (p : Provider) (args : Args)
    (group : Group) (st : WalkState)
    (h : is_group_excluded st.store group.id = true) :
    process_group (fuel + 1) p args group st = some (.ok (st, false)) := by
  simp [process_group, h]

/-- C4 witness: with group 1 already stored, the walker skips it on the
cyclic fixture graph and the state survives untouched. -/
theorem process_group_skips_excluded_witness :
    process_group 1 p_cycle args_search g1 ⟨[1], [], []⟩ =
      some (.ok (⟨[1], [], []⟩, false)) :=
  process_group_skips_excluded 0 p_cycle args_search g1 ⟨[1], [], []⟩ (by decide)

/-- C9: with no search keyword the selector draws an integer from the
inclusive range `[min, max]`; with a degenerate range `min = max` it always
returns `min` (in particular always `5` for `5..=5`). -/
theorem random_strategy_in_range (fuel : Nat) (p : Provider) (args : Args)
    (cur : Option String) (r : Nat) (log : List String)
    (hq : args.query = none) (hle : args.min ≤ args.max) :
    (∃ id, get_random_group_id (fuel + 1) p args cur r log = some (.ok id, log) ∧
        args.min ≤ id ∧ id ≤ args.max) ∧
    (args.min = args.max →
      get_random_group_id (fuel + 1) p args cur r log = some (.ok args.min, log)) := by
  have hmod : r % (args.max + 1 - args.min) < args.max + 1 - args.min :=
    Nat.mod_lt _ (by omega)
  constructor
  · refine ⟨args.min + r % (args.max + 1 - args.min), ?_, by omega, by omega⟩
    simp [get_random_group_id, hq, gen_range, hle]
  · intro h
    have h1 : args.max + 1 - args.min = 1 := by omega
    simp [get_random_group_id, hq, gen_range, hle, h1, Nat.mod_one]

/-- C9 witness: with `min = max = 5` the random strategy returns 5 on the
draw 7. -/
theorem random_strategy_in_range_witness :
    get_random_group_id 1 p_cycle args_five none 7 [] = some (.ok 5, []) :=
  (random_strategy_in_range 0 p_cycle args_five none 7 [] (by decide) (by decide)).2 (by decide)

/-- C10: the selector unconditionally unwraps the `data` field of a decoded
search response whose `errors` array is absent; when such a response has no
`data` array the process panics instead of skipping or returning the
sentinel. -/
theorem search_data_none_panics (fuel : Nat) (p : Provider) (args : Args)
    (cur : Option String) (r : Nat) (log : List String) (q : String)
    (resp : GroupSearchResponse)
    (hq : args.query = some q) (hs : p.search cur = .ok resp)
    (he : resp.errors = none) (hd : resp.data = none) :
    get_random_group_id (fuel + 1) p args cur r log =
      some (.panic unwrap_none_msg, log) := by
  simp [get_random_group_id, hq, hs, he, hd]

/-- C10 witness: on the fixture whose search response decodes with neither
errors nor data, the selector panics. -/
theorem search_data_none_panics_witness :
    get_random_group_id 1 p_search_no_data args_search none 0 [] =
      some (.panic unwrap_none_msg, []) :=
  search_data_none_panics 0 p_search_no_data args_search none 0 [] "Test"
    { page_fix [] with data := none } rfl rfl rfl rfl

/-- C8: a keyword-search response that decodes with a nonzero `errors` array
is fatal — the selector panics rather than skipping or looping — while a
decode failure of an individual group fetch in the same strategy is
swallowed silently (the id is just skipped). -/
theorem provider_error_fatal (fuel : Nat) (p : Provider) (args : Args)
    (cur : Option String) (r : Nat) (log : List String) (q : String)
    (resp : GroupSearchResponse) (es : List RobloxError) (a : Nat)
    (rest : List Nat)
    (hq : args.query = some q) (hs : p.search cur = .ok resp)
    (he : resp.errors = some es) (_hne : es ≠ [])
    (hdec : p.fetch_group a = .decodeError) :
    get_random_group_id (fuel + 1) p args cur r log =
      some (.panic search_errors_msg, log) ∧
    fetch_groups p (a :: rest) = fetch_groups p rest := by
  constructor
  · simp [get_random_group_id, hq, hs, he]
  · simp [fetch_groups, hdec]

/-- C8 witness: the fixture search response carrying one error panics the
selector, and a fetch of the undecodable group 0 is skipped silently. -/
theorem provider_error_fatal_witness :
    get_random_group_id 1 p_search_errors args_search none 0 [] =
      some (.panic search_errors_msg, []) ∧
    fetch_groups p_search_errors [0, 1] = fetch_groups p_search_errors [1] :=
  provider_error_fatal 0 p_search_errors args_search none 0 [] "Test"
    { page_fix [] with errors := some [err_fix] } [err_fix] 0 [1]
    rfl rfl rfl (by decide) rfl

/-- C7: in the search strategy, once the page's fetched records are filtered
by availability: if the filtered set is empty and the page has no next
cursor, the selector emits the "no groups" notice and returns the sentinel
invalid id 0; if the filtered set is non-empty it returns the id of one of
the filtered groups. -/
theorem search_exhaustion_spec (fuel : Nat) (p : Provider) (args : Args)
    (cur : Option String) (r : Nat) (log : List String) (q : String)
    (resp : GroupSearchResponse) (items : List GroupSearchResponseItem)
    (groups : List Group)
    (hq : args.query = some q) (hs : p.search cur = .ok resp)
    (he : resp.errors = none) (hd : resp.data = some items)
    (hf : fetch_groups p (items.map (fun it => it.id)) = .ok groups) :
    (groups.filter (fun g => is_group_available g args) = [] →
      resp.next_page_cursor = none →
      get_random_group_id (fuel + 1) p args cur r log =
        some (.ok 0, log ++ [no_groups_msg])) ∧
    (groups.filter (fun g => is_group_available g args) ≠ [] →
      ∃ g ∈ groups.filter (fun g => is_group_available g args),
        get_random_group_id (fuel + 1) p args cur r log = some (.ok g.id, log)) := by
  constructor
  · intro hemp hcur
    simp [get_random_group_id, hq, hs, he, hd, hf, hemp, hcur]
  · intro hne
    have hlen : 0 < (groups.filter (fun g => is_group_available g args)).length :=
      List.length_pos.mpr hne
    have hidx : r % (groups.filter (fun g => is_group_available g args)).length <
        (groups.filter (fun g => is_group_available g args)).length :=
      Nat.mod_lt _ hlen
    refine ⟨(groups.filter (fun g => is_group_available g args)).get ⟨_, hidx⟩,
      List.get_mem _ _ _, ?_⟩
    have hch : choose (groups.filter (fun g => is_group_available g args)) r =
        some ((groups.filter (fun g => is_group_available g args)).get ⟨_, hidx⟩) := by
      simp [choose, List.getElem?_eq_getElem hidx]
    simp [get_random_group_id, hq, hs, he, hd, hf, hne, hch]

/-- C7 witness: on the exhausted fixture (one owned item, no next cursor)
the selector logs the notice and returns 0; on the found fixture it returns
an id of the filtered set. -/
theorem search_exhaustion_spec_witness :
    get_random_group_id 1 p_search_exhausted args_search none 0 [] =
      some (.ok 0, [no_groups_msg]) ∧
    ∃ g ∈ [g2].filter (fun g => is_group_available g args_search),
      get_random_group_id 1 p_search_found args_search none 0 [] =
        some (.ok g.id, []) :=
  ⟨(search_exhaustion_spec 0 p_search_exhausted args_search none 0 [] "Test"
      (page_fix [item_fix 1]) [item_fix 1] [g1_owned] rfl rfl rfl rfl rfl)
      |>.1 (by decide) rfl,
   (search_exhaustion_spec 0 p_search_found args_search none 0 [] "Test"
      (page_fix [item_fix 2]) [item_fix 2] [g2] rfl rfl rfl rfl rfl)
      |>.2 (by decide)⟩

/-- C5 counterexample: on the fixture page `[1, 2]` the transport failure of
the individual fetch of group 1 aborts `fetch_groups` with `Err`, so the
remaining id 2 — an available group — is never returned, and the selection
attempt yields the sentinel 0 (a failed attempt) instead of selecting
group 2 as the claim implies. -/
theorem fetch_transport_aborts_page :
    fetch_groups p_fetch_transport [1, 2] = .error () ∧
    get_random_group_id 1 p_fetch_transport args_search none 0 [] =
      some (.ok 0, []) := by
  exact ⟨rfl, rfl⟩

/-- C5 amended: a *decode* failure of an individual group fetch is skipped
and the remaining ids are still fetched, but a *transport* failure of an
individual fetch aborts the whole page with `Err`, and the selection
attempt then falls through to the sentinel 0 (the process itself is not
aborted). -/
theorem fetch_groups_failure_spec (p : Provider) (a : Nat) (rest : List Nat)
    (fuel : Nat) (args : Args) (cur : Option String) (r : Nat)
    (log : List String) (q : String) (resp : GroupSearchResponse)
    (items : List GroupSearchResponseItem)
    (hq : args.query = some q) (hs : p.search cur = .ok resp)
    (he : resp.errors = none) (hd : resp.data = some items) :
    (p.fetch_group a = .decodeError →
      fetch_groups p (a :: rest) = fetch_groups p rest) ∧
    (p.fetch_group a = .transportError →
      fetch_groups p (a :: rest) = .error ()) ∧
    (fetch_groups p (items.map (fun it => it.id)) = .error () →
      get_random_group_id (fuel + 1) p args cur r log = some (.ok 0, log)) := by
  refine ⟨fun h => by simp [fetch_groups, h],
          fun h => by simp [fetch_groups, h],
          fun h => by simp [get_random_group_id, hq, hs, he, hd, h]⟩

/-- C5 amended witness: group 3 fails to decode and is skipped; group 1
fails at the transport level and kills the page; the enclosing attempt
returns the sentinel 0. -/
theorem fetch_groups_failure_spec_witness :
    fetch_groups p_fetch_transport [3, 2] = fetch_groups p_fetch_transport [2] ∧
    fetch_groups p_fetch_transport [1, 2] = .error () ∧
    get_random_group_id 1 p_fetch_transport args_search none 0 [] =
      some (.ok 0, []) :=
  ⟨(fetch_groups_failure_spec p_fetch_transport 3 [2] 0 args_search none 0 []
      "Test" (page_fix [item_fix 1, item_fix 2]) [item_fix 1, item_fix 2]
      rfl rfl rfl rfl).1 rfl,
   (fetch_groups_failure_spec p_fetch_transport 1 [2] 0 args_search none 0 []
      "Test" (page_fix [item_fix 1, item_fix 2]) [item_fix 1, item_fix 2]
      rfl rfl rfl rfl).2.1 rfl,
   (fetch_groups_failure_spec p_fetch_transport 1 [2] 0 args_search none 0 []
      "Test" (page_fix [item_fix 1, item_fix 2]) [item_fix 1, item_fix 2]
      rfl rfl rfl rfl).2.2 rfl⟩

/-- C6 counterexample: with the allies request of group 1 failing at the
transport level, the walk panics — the `?` propagates the `Err` to the
`.expect` in `process_group` — before the enemies page is processed: the
final state shows the available enemy group 2 was neither visited
(`visit_log = [1]`) nor reported, contradicting "a failure on one page does
not block the other and is recovered locally". -/
theorem allies_transport_fatal :
    process_group 3 p_allies_transport args_search g1 ⟨[], [], []⟩ =
      some (.panic rel_expect_msg ⟨[1], [1], []⟩) := by
  exact rfl

/-- C6 amended: relationship-page *decode* failures are independent and
skipped locally — when one of the two pages fails to decode, the other
page's related groups are still processed — but a *transport* failure of
either relationship request is propagated by `?` and is fatal to the walk
(`process_group` turns it into the `Failed to process relationships.`
panic); in the allies case the `?` fires before the enemies request is even
issued. -/
theorem process_relationships_failure_spec (fuel : Nat) (p : Provider)
    (args : Args) (group : Group) (st : WalkState) (rel : Relationships) :
    (p.allies group.id = .decodeError → p.enemies group.id = .ok rel →
      process_relationships (fuel + 1) p args group st =
        lift_list_res
          (process_list fuel p args rel.related_groups (log_visit st group.id))) ∧
    (p.enemies group.id = .decodeError → p.allies group.id = .ok rel →
      process_relationships (fuel + 1) p args group st =
        lift_list_res
          (process_list fuel p args rel.related_groups (log_visit st group.id))) ∧
    (p.allies group.id = .transportError →
      process_relationships (fuel + 1) p args group st =
        some (.ok (.error (log_visit st group.id)))) ∧
    (p.allies group.id ≠ .transportError →
      p.enemies group.id = .transportError →
      process_relationships (fuel + 1) p args group st =
        some (.ok (.error (log_visit st group.id)))) ∧
    (p.allies group.id = .transportError →
      is_group_excluded st.store group.id = false →
      process_group (fuel + 2) p args group st =
        some (.panic rel_expect_msg
          (log_visit { st with store := exclude_group st.store group.id }
            group.id))) ∧
    (p.allies group.id ≠ .transportError →
      p.enemies group.id = .transportError →
      is_group_excluded st.store group.id = false →
      process_group (fuel + 2) p args group st =
        some (.panic rel_expect_msg
          (log_visit { st with store := exclude_group st.store group.id }
            group.id))) := by
  have htr : p.allies group.id = .transportError →
      ∀ st' : WalkState, process_relationships (fuel + 1) p args group st' =
        some (.ok (.error (log_visit st' group.id))) := by
    intro h st'
    simp [process_relationships, h]
  have htrE : p.allies group.id ≠ .transportError →
      p.enemies group.id = .transportError →
      ∀ st' : WalkState, process_relationships (fuel + 1) p args group st' =
        some (.ok (.error (log_visit st' group.id))) := by
    intro ha he st'
    rcases hA : p.allies group.id with _ | _ | relA
    · exact absurd hA ha
    · simp [process_relationships, hA, he]
    · simp [process_relationships, hA, he]
  refine ⟨?_, ?_, fun h => htr h st, fun ha he => htrE ha he st, ?_, ?_⟩
  · intro ha hb
    rcases hres : process_list fuel p args rel.related_groups (log_visit st group.id) with
      _ | res
    · simp [process_relationships, ha, hb, hres, lift_list_res]
    · cases res <;> simp [process_relationships, ha, hb, hres, lift_list_res]
  · intro hb ha
    rcases hres : process_list fuel p args rel.related_groups (log_visit st group.id) with
      _ | res
    · simp [process_relationships, ha, hb, hres, lift_list_res]
    · cases res <;> simp [process_relationships, ha, hb, hres, lift_list_res]
  · intro h hex
    simp [process_group, hex, htr h _]
  · intro ha he hex
    simp [process_group, hex, htrE ha he _]

/-- C6 amended witness: on the decode-failure fixtures the surviving page's
group 2 is still processed; on either transport-failure fixture — allies
request down, or enemies request down with a decodable allies page — the
walk panics. -/
theorem process_relationships_failure_spec_witness :
    process_relationships 3 p_allies_decode args_search g1 ⟨[1], [], []⟩ =
      lift_list_res
        (process_list 2 p_allies_decode args_search [g2] (log_visit ⟨[1], [], []⟩ 1)) ∧
    process_relationships 3 p_enemies_decode args_search g1 ⟨[1], [], []⟩ =
      lift_list_res
        (process_list 2 p_enemies_decode args_search [g2] (log_visit ⟨[1], [], []⟩ 1)) ∧
    process_group 4 p_allies_transport args_search g1 ⟨[], [], []⟩ =
      some (.panic rel_expect_msg (log_visit ⟨[1], [], []⟩ 1)) ∧
    process_group 4 p_enemies_transport args_search g1 ⟨[], [], []⟩ =
      some (.panic rel_expect_msg (log_visit ⟨[1], [], []⟩ 1)) :=
  ⟨(process_relationships_failure_spec 2 p_allies_decode args_search g1
      ⟨[1], [], []⟩ (rel_page 1 [g2])).1 rfl rfl,
   (process_relationships_failure_spec 2 p_enemies_decode args_search g1
      ⟨[1], [], []⟩ (rel_page 1 [g2])).2.1 rfl rfl,
   (process_relationships_failure_spec 2 p_allies_transport args_search g1
      ⟨[], [], []⟩ (rel_page 1 [g2])).2.2.2.2.1 rfl (by decide),
   (process_relationships_failure_spec 2 p_enemies_transport args_search g1
      ⟨[], [], []⟩ (rel_page 1 [g2])).2.2.2.2.2 (by decide) rfl (by decide)⟩

/-! ### Termination of the relationship walk (C2) -/

theorem mem_exclude (store : List Nat) (a x : Nat) :
    x ∈ exclude_group store a ↔ x ∈ store ∨ x = a := by
  simp [exclude_group]

theorem excluded_iff (store : List Nat) (a : Nat) :
    is_group_excluded store a = true ↔ a ∈ store := by
  simp [is_group_excluded, List.elem_iff]

theorem fresh_count_le_of_subset (univ s t : List Nat)
    (h : ∀ x, x ∈ s → x ∈ t) : fresh_count univ t ≤ fresh_count univ s := by
  apply Finset.card_le_card
  apply Finset.sdiff_subset_sdiff (le_refl _)
  intro x hx
  simp only [List.mem_toFinset] at hx ⊢
  exact h x hx

theorem fresh_count_insert_lt (univ store : List Nat) (a : Nat)
    (ha : a ∈ univ) (hna : a ∉ store) :
    fresh_count univ (exclude_group store a) < fresh_count univ store := by
  apply Finset.card_lt_card
  rw [Finset.ssubset_iff_of_subset]
  · refine ⟨a, ?_, ?_⟩
    · simp [Finset.mem_sdiff, List.mem_toFinset, ha, hna]
    · simp [Finset.mem_sdiff, List.mem_toFinset, exclude_group]
  · intro x hx
    simp only [Finset.mem_sdiff, List.mem_toFinset, exclude_group,
      List.mem_append, List.mem_singleton] at hx ⊢
    tauto

theorem pg_fuel_pos (L n : Nat) : 1 ≤ pg_fuel L n :=
  Nat.le_add_left 1 ((3 + L) * n)

theorem pg_fuel_succ (L n : Nat) : pg_fuel L (n + 1) = pg_fuel L n + (3 + L) := by
  unfold pg_fuel
  ring

theorem page_ok_related (univ : List Nat) (L : Nat) (rel : Relationships)
    (h : page_ok univ L (.ok rel) = true) :
    (∀ g ∈ rel.related_groups, g.id ∈ univ) ∧ rel.related_groups.length ≤ L := by
  simp only [page_ok, Bool.and_eq_true, List.all_eq_true, Nat.ble_eq,
    List.elem_iff] at h
  obtain ⟨h1, h2⟩ := h
  exact ⟨fun g hg => by simpa [List.elem_iff] using h1 g hg, h2⟩

theorem process_list_spec (p : Provider) (args : Args) (univ : List Nat)
    (L n : Nat) (hPG : pg_spec p args univ L n) :
    ∀ (gs : List Group) (st : WalkState) (fuel : Nat),
      (∀ g ∈ gs, g.id ∈ univ) → WalkInv st →
      fresh_count univ st.store ≤ n →
      gs.length + pg_fuel L n ≤ fuel →
      ∃ out, process_list fuel p args gs st = some out ∧
        WalkInv (out_state_list out) ∧
        (∀ x, x ∈ st.store → x ∈ (out_state_list out).store) := by
  intro gs
  induction gs with
  | nil =>
    intro st fuel _ hInv _ hfuel
    obtain ⟨f, rfl⟩ : ∃ f, fuel = f + 1 :=
      ⟨fuel - 1, by have := pg_fuel_pos L n; omega⟩
    exact ⟨.ok st, by simp [process_list], hInv, fun x hx => hx⟩
  | cons g rest ih =>
    intro st fuel hgs hInv hfr hfuel
    obtain ⟨f, rfl⟩ : ∃ f, fuel = f + 1 :=
      ⟨fuel - 1, by have := pg_fuel_pos L n; omega⟩
    have hfuel' : pg_fuel L n ≤ f := by
      simp only [List.length_cons] at hfuel
      omega
    obtain ⟨out1, hout1, hInv1, hsub1, _⟩ :=
      hPG g st f hInv (hgs g (by simp)) hfr hfuel'
    rcases out1 with ⟨m, s⟩ | ⟨st1, b⟩
    · exact ⟨.panic m s, by simp [process_list, hout1], hInv1, hsub1⟩
    · have hfr1 : fresh_count univ st1.store ≤ n :=
        le_trans (fresh_count_le_of_subset univ st.store st1.store hsub1) hfr
      obtain ⟨out2, hout2, hInv2, hsub2⟩ :=
        ih st1 f (fun g hg => hgs g (by simp [hg])) hInv1 hfr1
          (by simp only [List.length_cons] at hfuel; omega)
      exact ⟨out2, by simp [process_list, hout1, hout2],
        hInv2, fun x hx => hsub2 x (hsub1 x hx)⟩

theorem process_relationships_spec (p : Provider) (args : Args)
    (univ : List Nat) (L n : Nat)
    (hA : ∀ id, page_ok univ L (p.allies id) = true)
    (hE : ∀ id, page_ok univ L (p.enemies id) = true)
    (hPG : pg_spec p args univ L n)
    (group : Group) (st : WalkState) (fuel : Nat)
    (hInv : WalkInv st) (hmem : group.id ∈ st.store)
    (hnlog : group.id ∉ st.visit_log)
    (hfr : fresh_count univ st.store ≤ n)
    (hfuel : 2 + L + pg_fuel L n ≤ fuel) :
    ∃ out, process_relationships fuel p args group st = some out ∧
      WalkInv (out_state_rel out) ∧
      (∀ x, x ∈ st.store → x ∈ (out_state_rel out).store) := by
  obtain ⟨f, rfl⟩ : ∃ f, fuel = f + 1 := ⟨fuel - 1, by omega⟩
  have hfuel' : L + pg_fuel L n ≤ f := by omega
  have hInv1 : WalkInv (log_visit st group.id) := by
    constructor
    · simp only [log_visit, List.nodup_append, List.nodup_cons,
        List.not_mem_nil, not_false_iff, List.nodup_nil, and_true, true_and]
      exact ⟨hInv.1, by simpa using fun h => hnlog h⟩
    · intro v hv
      simp only [log_visit, List.mem_append, List.mem_singleton] at hv
      rcases hv with hv | rfl
      · exact hInv.2 v hv
      · exact hmem
  have hst1 : (log_visit st group.id).store = st.store := rfl
  have hfr1 : fresh_count univ (log_visit st group.id).store ≤ n := by
    rw [hst1]; exact hfr
  rcases ha : p.allies group.id with _ | _ | relA
  · exact ⟨.ok (.error (log_visit st group.id)),
      by simp [process_relationships, ha], hInv1, fun x hx => hx⟩
  · rcases he : p.enemies group.id with _ | _ | relE
    · exact ⟨.ok (.error (log_visit st group.id)),
        by simp [process_relationships, ha, he], hInv1, fun x hx => hx⟩
    · exact ⟨.ok (.ok (log_visit st group.id)),
        by simp [process_relationships, ha, he], hInv1, fun x hx => hx⟩
    · have hpage := hE group.id
      rw [he] at hpage
      obtain ⟨hidsE, hlenE⟩ := page_ok_related univ L relE hpage
      obtain ⟨out2, hout2, hInv2, hsub2⟩ :=
        process_list_spec p args univ L n hPG relE.related_groups
          (log_visit st group.id) f hidsE hInv1 hfr1 (by omega)
      rcases out2 with ⟨m, s⟩ | st2
      · exact ⟨.panic m s, by simp [process_relationships, ha, he, hout2],
          hInv2, hsub2⟩
      · exact ⟨.ok (.ok st2), by simp [process_relationships, ha, he, hout2],
          hInv2, hsub2⟩
  · have hpage := hA group.id
    rw [ha] at hpage
    obtain ⟨hidsA, hlenA⟩ := page_ok_related univ L relA hpage
    rcases he : p.enemies group.id with _ | _ | relE
    · exact ⟨.ok (.error (log_visit st group.id)),
        by simp [process_relationships, ha, he], hInv1, fun x hx => hx⟩
    · obtain ⟨out2, hout2, hInv2, hsub2⟩ :=
        process_list_spec p args univ L n hPG relA.related_groups
          (log_visit st group.id) f hidsA hInv1 hfr1 (by omega)
      rcases out2 with ⟨m, s⟩ | st2
      · exact ⟨.panic m s, by simp [process_relationships, ha, he, hout2],
          hInv2, hsub2⟩
      · exact ⟨.ok (.ok st2), by simp [process_relationships, ha, he, hout2],
          hInv2, hsub2⟩
    · obtain ⟨out2, hout2, hInv2, hsub2⟩ :=
        process_list_spec p args univ L n hPG relA.related_groups
          (log_visit st group.id) f hidsA hInv1 hfr1 (by omega)
      rcases out2 with ⟨m, s⟩ | st2
      · exact ⟨.panic m s, by simp [process_relationships, ha, he, hout2],
          hInv2, hsub2⟩
      · have hpageE := hE group.id
        rw [he] at hpageE
        obtain ⟨hidsE, hlenE⟩ := page_ok_related univ L relE hpageE
        have hfr2 : fresh_count univ st2.store ≤ n :=
          le_trans (fresh_count_le_of_subset univ _ _ hsub2) hfr1
        obtain ⟨out3, hout3, hInv3, hsub3⟩ :=
          process_list_spec p args univ L n hPG relE.related_groups st2 f
            hidsE hInv2 hfr2 (by omega)
        rcases out3 with ⟨m, s⟩ | st3
        · exact ⟨.panic m s,
            by simp [process_relationships, ha, he, hout2, hout3],
            hInv3, fun x hx => hsub3 x (hsub2 x hx)⟩
        · exact ⟨.ok (.ok st3),
            by simp [process_relationships, ha, he, hout2, hout3],
            hInv3, fun x hx => hsub3 x (hsub2 x hx)⟩

theorem process_group_spec (p : Provider) (args : Args) (univ : List Nat)
    (L : Nat)
    (hA : ∀ id, page_ok univ L (p.allies id) = true)
    (hE : ∀ id, page_ok univ L (p.enemies id) = true) :
    ∀ n, pg_spec p args univ L n := by
  intro n
  induction n using Nat.strong_induction_on with
  | _ n ih =>
  intro group st fuel hInv hgu hfr hfuel
  obtain ⟨f, rfl⟩ : ∃ f, fuel = f + 1 :=
    ⟨fuel - 1, by have := pg_fuel_pos L n; omega⟩
  by_cases hex : is_group_excluded st.store group.id = true
  · exact ⟨.ok (st, false), by simp [process_group, hex], hInv,
      fun x hx => hx, (excluded_iff _ _).mp hex⟩
  · rw [Bool.not_eq_true] at hex
    have hnotmem : group.id ∉ st.store := fun h => by
      rw [(excluded_iff _ _).mpr h] at hex
      cases hex
    have hpos : 0 < fresh_count univ st.store := by
      apply Finset.card_pos.mpr
      exact ⟨group.id, Finset.mem_sdiff.mpr
        ⟨List.mem_toFinset.mpr hgu, fun h => hnotmem (List.mem_toFinset.mp h)⟩⟩
    obtain ⟨m, rfl⟩ : ∃ m, n = m + 1 := ⟨n - 1, by omega⟩
    have hlt := fresh_count_insert_lt univ st.store group.id hgu hnotmem
    have hfr1 : fresh_count univ (exclude_group st.store group.id) ≤ m := by
      omega
    have hsub01 : ∀ x, x ∈ st.store → x ∈ exclude_group st.store group.id :=
      fun x hx => (mem_exclude _ _ _).mpr (Or.inl hx)
    have hInv1 : WalkInv { st with store := exclude_group st.store group.id } :=
      ⟨hInv.1, fun v hv => hsub01 v (hInv.2 v hv)⟩
    have hmem1 : group.id ∈ exclude_group st.store group.id :=
      (mem_exclude _ _ _).mpr (Or.inr rfl)
    have hnlog1 : group.id ∉ st.visit_log := fun h => hnotmem (hInv.2 _ h)
    have hfuel1 : 2 + L + pg_fuel L m ≤ f := by
      have := pg_fuel_succ L m
      omega
    obtain ⟨out, hout, hInvO, hsubO⟩ :=
      process_relationships_spec p args univ L m hA hE (ih m (by omega)) group
        { st with store := exclude_group st.store group.id } f hInv1 hmem1
        hnlog1 hfr1 hfuel1
    have hsubO' : ∀ x, x ∈ st.store → x ∈ (out_state_rel out).store :=
      fun x hx => hsubO x (hsub01 x hx)
    have hmemO : group.id ∈ (out_state_rel out).store := hsubO _ hmem1
    have hexF : is_group_excluded st.store group.id = false := hex
    rcases out with ⟨ms, s⟩ | res
    · exact ⟨.panic ms s, by simp [process_group, hexF, hout], hInvO, hsubO',
        hmemO⟩
    · rcases res with s | st2
      · exact ⟨.panic rel_expect_msg s, by simp [process_group, hexF, hout],
          hInvO, hsubO', hmemO⟩
      · by_cases hav : is_group_available group args = true
        · exact ⟨.ok ({ st2 with reported := st2.reported ++ [group.id] }, true),
            by simp [process_group, hexF, hout, hav], hInvO, hsubO', hmemO⟩
        · rw [Bool.not_eq_true] at hav
          exact ⟨.ok (st2, false), by simp [process_group, hexF, hout, hav],
            hInvO, hsubO', hmemO⟩

/-- C2: the walker marks a group visited (inserts its id into the store)
before recursing, so on every finite relationship graph — `univ` lists every
id a relationship page can mention and `L` bounds the page size — the walk
from any seed terminates (sufficient fuel makes it return rather than run
out) and visits each group at most once: the log of relationship-page
requests has no duplicates, and the seed's id ends up stored. -/
theorem relationship_walk_terminates (p : Provider) (args : Args)
    (univ : List Nat) (L : Nat)
    (hA : ∀ id, page_ok univ L (p.allies id) = true)
    (hE : ∀ id, page_ok univ L (p.enemies id) = true)
    (group : Group) (st : WalkState) (hg : group.id ∈ univ)
    (hInv : WalkInv st) (fuel : Nat)
    (hfuel : pg_fuel L (fresh_count univ st.store) ≤ fuel) :
    ∃ out, process_group fuel p args group st = some out ∧
      (out_state_group out).visit_log.Nodup ∧
      group.id ∈ (out_state_group out).store := by
  obtain ⟨out, hout, hInvO, _, hmemO⟩ :=
    process_group_spec p args univ L hA hE (fresh_count univ st.store) group st
      fuel hInv hg (le_refl _) hfuel
  exact ⟨out, hout, hInvO.1, hmemO⟩

/-- C2 witness: on the cyclic two-group graph 1 → 2 → 1 the walk from group
1 terminates within the computed fuel and each group's relationship pages
are requested at most once. -/
theorem relationship_walk_terminates_witness :
    ∃ out, process_group 9 p_cycle args_search g1 ⟨[], [], []⟩ = some out ∧
      (out_state_group out).visit_log.Nodup ∧
      1 ∈ (out_state_group out).store := by
  refine relationship_walk_terminates p_cycle args_search [1, 2] 1 ?_ ?_ g1
    ⟨[], [], []⟩ (by decide) ⟨List.nodup_nil, by simp⟩ 9 (by decide)
  · intro id
    rcases id with _ | _ | _ | id <;> rfl
  · intro id
    rcases id with _ | _ | _ | id <;> rfl

end Reclaimer
